import Mathlib

/-!
Verification of the land-clearing analysis core of the AUS_Land_Clearing
repository.  The Earth Engine script code is shallowly embedded: a raster is
a numeric value at every (row, column) cell, and the Earth Engine image
operators the scripts use (eq, and, not, or, where, remap, constant) are
modelled as the corresponding per-cell operations.
-/

namespace AusLandClearing

/-- A raster cell address, written (row, column). -/
abbrev Cell : Type := Nat × Nat

/-- A single-band raster: a numeric value at every cell. -/
abbrev Raster : Type := Cell → Nat

/-- ee.Image.eq(value): per cell, 1 where the image equals the value, else 0. -/
def eeEq (img : Raster) (v : Nat) : Raster := fun c => if img c = v then 1 else 0

/-- ee.Image.and(other): per cell, 1 where both inputs are nonzero, else 0. -/
def eeAnd (a b : Raster) : Raster := fun c => if a c ≠ 0 ∧ b c ≠ 0 then 1 else 0

/-- ee.Image.or(other): per cell, 1 where either input is nonzero, else 0. -/
def eeOr (a b : Raster) : Raster := fun c => if a c ≠ 0 ∨ b c ≠ 0 then 1 else 0

/-- ee.Image.not(): per cell, 1 where the input is zero, else 0. -/
def eeNot (a : Raster) : Raster := fun c => if a c = 0 then 1 else 0

/-- ee.Image.constant(value): the constant raster. -/
def eeConstant (v : Nat) : Raster := fun _ => v

/-- ee.Image.where(test, value): per cell, the value raster where the test
raster is nonzero, the input raster elsewhere. -/
def eeWhere (input test value : Raster) : Raster :=
  fun c => if test c ≠ 0 then value c else input c

/-- ee.Image.remap(from, to, defaultValue): per cell, the element of the
to-list at the position where the cell value occurs in the from-list, and
the default value for cell values absent from the from-list. -/
def eeRemap (img : Raster) (fromCodes toCodes : List Nat) (defaultValue : Nat) : Raster :=
  fun c =>
    if img c ∈ fromCodes then toCodes.getD (fromCodes.indexOf (img c)) defaultValue
    else defaultValue

/-- utils.detectClearing (core/utils.js, also src/unnamed/part_000 lines
616-623): woodyT1.eq(1).and(woodyT2.eq(0)).  Clearing is 1 where time 1 was
woody (value 1) and time 2 is non-woody (value 0). -/
def detectClearing (woodyT1 woodyT2 : Raster) : Raster :=
  eeAnd (eeEq woodyT1 1) (eeEq woodyT2 0)

/-- Build a raster from row-major nested lists; cells outside the listed
grid read as 0. -/
def rasterOfRows (rows : List (List Nat)) : Raster :=
  fun c => (rows.getD c.1 []).getD c.2 0

/-- The 3-by-3 before grid of the end-to-end scenario in the spec. -/
def before3x3 : Raster := rasterOfRows [[1, 1, 0], [1, 1, 0], [0, 0, 0]]

/-- The 3-by-3 after grid of the end-to-end scenario in the spec. -/
def after3x3 : Raster := rasterOfRows [[1, 0, 0], [1, 1, 0], [0, 0, 0]]

/-- Per-cell characterisation of detectClearing. -/
theorem detectClearing_apply (before after : Raster) (c : Cell) :
    detectClearing before after c = if before c = 1 ∧ after c = 0 then 1 else 0 := by
  unfold detectClearing eeAnd eeEq
  by_cases h1 : before c = 1 <;> by_cases h2 : after c = 0 <;> simp [h1, h2]

/-- C2: detectClearing returns 1 at exactly the cells where the before
raster is 1 and the after raster is 0, and 0 at every other cell; on the
spec 3-by-3 example grids the output is 1 at cell (0, 1) and 0 at every
other cell of the grid. -/
theorem detectClearing_woody_to_nonwoody :
    (∀ before after : Raster, ∀ c : Cell,
        detectClearing before after c = if before c = 1 ∧ after c = 0 then 1 else 0)
    ∧ detectClearing before3x3 after3x3 (0, 1) = 1
    ∧ (∀ i, i < 3 → ∀ j, j < 3 → (i, j) ≠ ((0 : Nat), (1 : Nat)) →
        detectClearing before3x3 after3x3 (i, j) = 0) :=
  ⟨detectClearing_apply, by decide, by decide⟩

/-- Witness for C2, instantiated at the cell (1, 1) of the 3-by-3 example:
a woody cell that stays woody is not flagged. -/
theorem detectClearing_woody_to_nonwoody_witness :
    detectClearing before3x3 after3x3 (1, 1) = 0 :=
  detectClearing_woody_to_nonwoody.2.2 1 (by decide) 1 (by decide) (by decide)

/-- reclassifyESAToWoodyNonwoody (src/gee/dea_annual_landcover_nsw_qld.js
lines 149-166): woody = eq(10).or(eq(20)).or(eq(95)); nonWoody =
eq(30).or(eq(40)).or(eq(90)); ee.Image(0).where(woody, 1).where(nonWoody, 2).
Output codes: 0 = other, 1 = woody, 2 = non-woody. -/
def reclassifyESAToWoodyNonwoody (image : Raster) : Raster :=
  let woody := eeOr (eeOr (eeEq image 10) (eeEq image 20)) (eeEq image 95)
  let nonWoody := eeOr (eeOr (eeEq image 30) (eeEq image 40)) (eeEq image 90)
  eeWhere (eeWhere (eeConstant 0) woody (eeConstant 1)) nonWoody (eeConstant 2)

/-- C10: detectClearing flags a cell only when the after value is exactly 0
and the before value is exactly 1; in particular, on the three-valued
rasters of the reclassification script (0 = other, 1 = woody, 2 =
non-woody), a cell that moves from woody (1) to non-woody (2) is not
reported as clearing. -/
theorem detectClearing_requires_exact_zero :
    (∀ before after : Raster, ∀ c : Cell,
        after c ≠ 0 → detectClearing before after c = 0)
    ∧ (∀ imgB imgA : Raster, ∀ c : Cell,
        reclassifyESAToWoodyNonwoody imgB c = 1 →
        reclassifyESAToWoodyNonwoody imgA c = 2 →
        detectClearing (reclassifyESAToWoodyNonwoody imgB)
          (reclassifyESAToWoodyNonwoody imgA) c = 0) := by
  constructor
  · intro before after c h
    rw [detectClearing_apply]
    simp [h]
  · intro imgB imgA c h1 h2
    rw [detectClearing_apply]
    simp [h2]

/-- Witness for C10: an ESA tree-cover cell (code 10, reclassified woody)
that becomes grassland (code 30, reclassified non-woody 2) is not flagged. -/
theorem detectClearing_requires_exact_zero_witness :
    detectClearing (reclassifyESAToWoodyNonwoody (eeConstant 10))
      (reclassifyESAToWoodyNonwoody (eeConstant 30)) (0, 0) = 0 :=
  detectClearing_requires_exact_zero.2 (eeConstant 10) (eeConstant 30) (0, 0)
    (by decide) (by decide)

/-- One category of config.LAND_COVER_CLASSES: display name, member class
codes, colour, and description. -/
structure LandCoverCategory where
  name : String
  classes : List Nat
  color : String
  description : String

/-- The shape of config.LAND_COVER_CLASSES: the five named categories. -/
structure ClassMap where
  WOODY : LandCoverCategory
  NON_WOODY : LandCoverCategory
  BARE : LandCoverCategory
  WATER : LandCoverCategory
  URBAN : LandCoverCategory

/-- config.LAND_COVER_CLASSES (src/gee_scripts/core/config.js lines
170-210). -/
def LAND_COVER_CLASSES : ClassMap :=
  ⟨⟨"Woody Vegetation", [111, 112, 113, 121, 122, 123, 124, 125, 126], "1a5928",
     "Trees, shrubs, and woody vegetation"⟩,
   ⟨"Non-Woody Vegetation", [211, 212, 213, 214, 215, 216], "78d203",
     "Grasses, crops, and herbaceous vegetation"⟩,
   ⟨"Bare/Sparse", [221, 222, 223], "e8b520", "Bare soil, sparse vegetation"⟩,
   ⟨"Water", [311, 312, 313, 314, 315], "0060ff", "Water bodies"⟩,
   ⟨"Urban/Built", [411, 412], "ff0000", "Urban and built-up areas"⟩⟩

/-- utils.createWoodyMask with the class map abstracted as an argument:
remap the woody class codes to a list of ones, default value 0. -/
def createWoodyMaskWith (classMap : ClassMap) (landCoverImage : Raster) : Raster :=
  let woodyClasses := classMap.WOODY.classes
  eeRemap landCoverImage woodyClasses (List.replicate woodyClasses.length 1) 0

/-- utils.createWoodyMask (core/utils.js, src/unnamed/part_000 lines
435-447), reading the woody classes from config.LAND_COVER_CLASSES. -/
def createWoodyMask (landCoverImage : Raster) : Raster :=
  createWoodyMaskWith LAND_COVER_CLASSES landCoverImage

/-- Reading any in-range position of a replicated list yields the
replicated element. -/
theorem replicate_getD (n i v d : Nat) (h : i < n) :
    (List.replicate n v).getD i d = v := by
  induction n generalizing i with
  | zero => omega
  | succ n ih =>
    cases i with
    | zero => rfl
    | succ i =>
      rw [List.replicate_succ]
      simpa using ih i (by omega)

/-- Per-cell characterisation of the woody mask: 1 exactly on woody class
membership. -/
theorem createWoodyMaskWith_apply (classMap : ClassMap) (img : Raster) (c : Cell) :
    createWoodyMaskWith classMap img c =
      if img c ∈ classMap.WOODY.classes then 1 else 0 := by
  unfold createWoodyMaskWith eeRemap
  by_cases h : img c ∈ classMap.WOODY.classes
  · simp only [h, if_true]
    exact replicate_getD _ _ _ _ (List.indexOf_lt_length.mpr h)
  · simp [h]

/-- C3: for every class map the woody mask takes only the values 0 and 1,
reading 1 at exactly the cells whose code lies in the woody category list
and 0 at cells of any other category or of no category; an unmapped code
such as 999 defaults to 0 under the repository class map. -/
theorem createWoodyMask_binary_membership :
    (∀ classMap : ClassMap, ∀ img : Raster, ∀ c : Cell,
        createWoodyMaskWith classMap img c =
          if img c ∈ classMap.WOODY.classes then 1 else 0)
    ∧ (∀ img : Raster, ∀ c : Cell, img c = 999 → createWoodyMask img c = 0) := by
  refine ⟨createWoodyMaskWith_apply, ?_⟩
  intro img c h
  unfold createWoodyMask
  rw [createWoodyMaskWith_apply, h]
  decide

/-- Witness for C3: a cell bearing the unmapped code 999 classifies to 0. -/
theorem createWoodyMask_binary_membership_witness :
    createWoodyMask (eeConstant 999) (0, 0) = 0 :=
  createWoodyMask_binary_membership.2 (eeConstant 999) (0, 0) rfl

/-- The five category code lists of a class map, in configuration order. -/
def categoryLists (cm : ClassMap) : List (List Nat) :=
  [cm.WOODY.classes, cm.NON_WOODY.classes, cm.BARE.classes,
   cm.WATER.classes, cm.URBAN.classes]

/-- A class map in which some code is listed in more than one category. -/
def HasAmbiguousCode (cm : ClassMap) : Prop :=
  ∃ l1 ∈ categoryLists cm, ∃ l2 ∈ categoryLists cm,
    l1 ≠ l2 ∧ ∃ code ∈ l1, code ∈ l2

/-- A class map listing code 111 in both the woody and the non-woody
category. -/
def ambiguousClassMap : ClassMap :=
  ⟨⟨"Woody Vegetation", [111, 112, 113], "1a5928", "overlap test"⟩,
   ⟨"Non-Woody Vegetation", [111, 211, 212], "78d203", "overlap test"⟩,
   ⟨"Bare/Sparse", [221], "e8b520", "overlap test"⟩,
   ⟨"Water", [311], "0060ff", "overlap test"⟩,
   ⟨"Urban/Built", [411], "ff0000", "overlap test"⟩⟩

/-- Counterexample to C8: on a class map listing code 111 in both the woody
and the non-woody category, createWoodyMask raises nothing and produces a
mask that reads 1 at a cell bearing code 111; no InvalidClassMap check
exists in the code. -/
theorem createWoodyMask_ambiguous_counterexample :
    HasAmbiguousCode ambiguousClassMap
    ∧ createWoodyMaskWith ambiguousClassMap (eeConstant 111) (0, 0) = 1 := by
  constructor
  · unfold HasAmbiguousCode
    decide
  · decide

/-- C8 amended: createWoodyMask performs no class-map validation; even on a
class map in which some code is listed in more than one category it
produces its mask, with the value decided solely by membership of the
woody class list. -/
theorem createWoodyMask_no_classmap_validation
    (cm : ClassMap) (h : HasAmbiguousCode cm) (img : Raster) (c : Cell) :
    createWoodyMaskWith cm img c = if img c ∈ cm.WOODY.classes then 1 else 0 :=
  createWoodyMaskWith_apply cm img c

/-- Witness for the amended C8, on the ambiguous class map at a cell
bearing the doubly-listed code 111. -/
theorem createWoodyMask_no_classmap_validation_witness :
    createWoodyMaskWith ambiguousClassMap (eeConstant 111) (1, 2) =
      if eeConstant 111 (1, 2) ∈ ambiguousClassMap.WOODY.classes then 1 else 0 :=
  createWoodyMask_no_classmap_validation ambiguousClassMap
    (by unfold HasAmbiguousCode; decide) (eeConstant 111) (1, 2)

/-- Grid geometry of a raster: coordinate reference system, resolution in
metres, and extent in rows and columns. -/
structure GridGeometry where
  crs : String
  scale : Nat
  rows : Nat
  cols : Nat
deriving DecidableEq

/-- A raster together with its grid geometry. -/
structure GeoRaster where
  geometry : GridGeometry
  values : Raster

/-- ee.Image.eq at the geometry-carrying level: the per-cell comparison; no
geometry is inspected. -/
def eeEqGeo (img : GeoRaster) (v : Nat) : GeoRaster :=
  ⟨img.geometry, eeEq img.values v⟩

/-- ee.Image.and at the geometry-carrying level: the per-cell conjunction;
the platform aligns the inputs itself and the script inspects no
geometry. -/
def eeAndGeo (a b : GeoRaster) : GeoRaster :=
  ⟨a.geometry, eeAnd a.values b.values⟩

/-- utils.detectClearing on geometry-carrying rasters, exactly as written:
woodyT1.eq(1).and(woodyT2.eq(0)); the source contains no grid check. -/
def detectClearingGeo (woodyT1 woodyT2 : GeoRaster) : GeoRaster :=
  eeAndGeo (eeEqGeo woodyT1 1) (eeEqGeo woodyT2 0)

/-- A woody raster on the Australian Albers 25 m grid. -/
def albersWoody : GeoRaster := ⟨⟨"EPSG:3577", 25, 3, 3⟩, before3x3⟩

/-- An after raster on a different grid (WGS84, 60 m, 4 by 4). -/
def wgs84After : GeoRaster := ⟨⟨"EPSG:4326", 60, 4, 4⟩, after3x3⟩

/-- Counterexample to C5: on two rasters whose grid geometries differ in
CRS, resolution and extent alike, detectClearing produces an output raster
(reading 1 at cell (0, 1)) instead of failing with a GridMismatch error. -/
theorem detectClearing_no_gridmismatch_counterexample :
    albersWoody.geometry ≠ wgs84After.geometry
    ∧ (detectClearingGeo albersWoody wgs84After).values (0, 1) = 1 := by
  exact ⟨by decide, by decide⟩

/-- C5 amended: detectClearing performs no grid-geometry check: for every
pair of inputs whose geometries differ it still produces the full per-cell
woody-to-non-woody output; no GridMismatch failure exists in the code. -/
theorem detectClearing_ignores_grid_geometry
    (a b : GeoRaster) (h : a.geometry ≠ b.geometry) (c : Cell) :
    (detectClearingGeo a b).values c =
      if a.values c = 1 ∧ b.values c = 0 then 1 else 0 :=
  detectClearing_apply a.values b.values c

/-- Witness for the amended C5, at cell (2, 2) of the mismatched pair. -/
theorem detectClearing_ignores_grid_geometry_witness :
    (detectClearingGeo albersWoody wgs84After).values (2, 2) =
      if albersWoody.values (2, 2) = 1 ∧ wgs84After.values (2, 2) = 0 then 1 else 0 :=
  detectClearing_ignores_grid_geometry albersWoody wgs84After (by decide) (2, 2)

/-- An Earth Engine evaluation failure, as surfaced by the operators the
scripts use. -/
inductive EEError where
  | listIndexOutOfRange : Nat → Nat → EEError
  | renameMismatch : Nat → Nat → EEError
  | bandCountMismatch : Nat → Nat → EEError
  | bandNotFound : String → EEError
deriving DecidableEq

/-- A multi-band Earth Engine image: its named bands, in order. -/
structure MultiBandImage where
  bands : List (String × Raster)

/-- Apply a per-cell operation to every band, keeping the band names. -/
def mapBands (f : Raster → Raster) (img : MultiBandImage) : MultiBandImage :=
  ⟨img.bands.map (fun b => (b.1, f b.2))⟩

/-- ee.Image.eq(value) on a multi-band image: applied to every band. -/
def eqImage (img : MultiBandImage) (v : Nat) : MultiBandImage :=
  mapBands (fun r => eeEq r v) img

/-- ee.Image.and between two images, with the Earth Engine band-matching
rule: equal band counts pair the bands in order; a single-band operand is
applied against every band of the other image, whose names the output
keeps; any other combination is an error. -/
def andImage (a b : MultiBandImage) : Except EEError MultiBandImage :=
  if a.bands.length = b.bands.length then
    Except.ok ⟨List.zipWith (fun x y => (x.1, eeAnd x.2 y.2)) a.bands b.bands⟩
  else if b.bands.length = 1 then
    Except.ok ⟨a.bands.map
      (fun x => (x.1, eeAnd x.2 (b.bands.getD 0 ("", eeConstant 0)).2))⟩
  else if a.bands.length = 1 then
    Except.ok ⟨b.bands.map
      (fun y => (y.1, eeAnd (a.bands.getD 0 ("", eeConstant 0)).2 y.2))⟩
  else Except.error (EEError.bandCountMismatch a.bands.length b.bands.length)

/-- ee.Image.rename(names): fails unless exactly one name is supplied per
band of the image. -/
def renameImage (img : MultiBandImage) (names : List String) :
    Except EEError MultiBandImage :=
  if names.length = img.bands.length then
    Except.ok ⟨List.zipWith (fun n b => (n, b.2)) names img.bands⟩
  else Except.error (EEError.renameMismatch names.length img.bands.length)

/-- ee.Image.addBands(other): the bands of the first image followed by the
bands of the second (all band names distinct in the uses here). -/
def addBandsImage (img other : MultiBandImage) : MultiBandImage :=
  ⟨img.bands ++ other.bands⟩

/-- ee.Image.select(name): the named band alone, or a failure when the
image has no band of that name. -/
def selectBand (img : MultiBandImage) (name : String) :
    Except EEError MultiBandImage :=
  match img.bands.find? (fun b => b.1 == name) with
  | some b => Except.ok ⟨[b]⟩
  | none => Except.error (EEError.bandNotFound name)

/-- ee.Image.constant(value): one constant band named constant. -/
def constantImage (v : Nat) : MultiBandImage :=
  ⟨[("constant", eeConstant v)]⟩

/-- The band of bs used against band i of an n-band input: the band at i
when the counts agree, the single band otherwise (broadcast). -/
def broadcastBand (bs : List (String × Raster)) (i n : Nat) : Raster :=
  if bs.length = n then (bs.getD i ("", eeConstant 0)).2
  else (bs.getD 0 ("", eeConstant 0)).2

/-- ee.Image.where(test, value) on multi-band images: per input band, the
test and value bands are matched by position, a single-band test or value
being applied to every input band; other band counts are an error. -/
def whereImage (input test value : MultiBandImage) :
    Except EEError MultiBandImage :=
  if (test.bands.length = input.bands.length ∨ test.bands.length = 1)
      ∧ (value.bands.length = input.bands.length ∨ value.bands.length = 1) then
    Except.ok ⟨(List.range input.bands.length).map (fun i =>
      let b := input.bands.getD i ("", eeConstant 0)
      (b.1, eeWhere b.2 (broadcastBand test.bands i input.bands.length)
        (broadcastBand value.bands i input.bands.length)))⟩
  else Except.error (EEError.bandCountMismatch test.bands.length input.bands.length)

/-- utils.detectClearing applied with full band bookkeeping, as it runs
inside cumulativeClearing where its first argument is the two-band
accumulator: woodyT1.eq(1).and(woodyT2.eq(0)).rename(clearing).  The
rename supplies one name, so it fails whenever the conjunction carries
more than one band. -/
def detectClearingImage (woodyT1 woodyT2 : MultiBandImage) :
    Except EEError MultiBandImage :=
  match andImage (eqImage woodyT1 1) (eqImage woodyT2 0) with
  | Except.ok conj => renameImage conj ["clearing"]
  | Except.error e => Except.error e

/-- An image of the woody time series together with its year property. -/
structure AnnualImage where
  year : Nat
  image : MultiBandImage

/-- One step of the iterate in utils.cumulativeClearing (src/unnamed/
part_000 lines 636-649): cleared = detectClearing(previous, current);
previous.where(cleared.and(previous.select(clearing_year).eq(0)),
ee.Image.constant(year).rename(clearing_year)).  The accumulator is the
two-band image baseline plus clearing_year, so the detectClearing call
renames a two-band conjunction to one name and the step fails there. -/
def cumulativeStep (previous : MultiBandImage) (current : AnnualImage) :
    Except EEError MultiBandImage :=
  match detectClearingImage previous current.image with
  | Except.error e => Except.error e
  | Except.ok cleared =>
    match selectBand previous "clearing_year" with
    | Except.error e => Except.error e
    | Except.ok cy =>
      match andImage cleared (eqImage cy 0) with
      | Except.error e => Except.error e
      | Except.ok test =>
        match renameImage (constantImage current.year) ["clearing_year"] with
        | Except.error e => Except.error e
        | Except.ok value => whereImage previous test value

/-- ee.List.iterate of cumulativeStep over the remaining layers; a failed
step fails the whole evaluation. -/
def iterateClearing (layers : List AnnualImage) (acc : MultiBandImage) :
    Except EEError MultiBandImage :=
  match layers with
  | [] => Except.ok acc
  | l :: ls =>
    match cumulativeStep acc l with
    | Except.error e => Except.error e
    | Except.ok next => iterateClearing ls next

/-- utils.cumulativeClearing (src/unnamed/part_000 lines 631-653): take
list.get(0) as baseline — an out-of-range failure on an empty collection —
add a clearing_year band of zeros, and iterate cumulativeStep over the
remaining layers. -/
def cumulativeClearing (woodyTimeSeries : List AnnualImage) :
    Except EEError MultiBandImage :=
  match woodyTimeSeries with
  | [] => Except.error (EEError.listIndexOutOfRange 0 0)
  | baseline :: rest =>
    match renameImage (constantImage 0) ["clearing_year"] with
    | Except.error e => Except.error e
    | Except.ok zeroBand =>
        iterateClearing rest (addBandsImage baseline.image zeroBand)

/-- A single-band all-woody image, band name woody. -/
def woodyAllOne : MultiBandImage := ⟨[("woody", eeConstant 1)]⟩

/-- A single-band all-clear image, band name woody. -/
def woodyAllZero : MultiBandImage := ⟨[("woody", eeConstant 0)]⟩

/-- C1 (code bug): evaluating cumulativeClearing on the scenario of the
spec — single-band woody layers for years 1, 2, 3 where every cell clears
at year 2 and reads woody again at year 3 — produces no write-once
clearing-year raster at all: the first iterate step fails with the
band-count error of renaming the two-band detectClearing conjunction (the
accumulator bands woody and clearing_year) to the single name clearing. -/
theorem cumulativeClearing_spec_scenario_errors :
    cumulativeClearing
        [⟨1, woodyAllOne⟩, ⟨2, woodyAllZero⟩, ⟨3, woodyAllOne⟩] =
      Except.error (EEError.renameMismatch 1 2) := rfl

/-- On a two-band first argument and a single-band second argument, the
in-tracker detectClearing fails at its rename. -/
theorem detectClearingImage_two_band_error (a b : MultiBandImage)
    (ha : a.bands.length = 2) (hb : b.bands.length = 1) :
    detectClearingImage a b = Except.error (EEError.renameMismatch 1 2) := by
  unfold detectClearingImage andImage renameImage eqImage mapBands
  simp [ha, hb]

/-- Counterexample to C7: cumulativeClearing diagnoses no year order: on
the year-decreasing layers 5, 3 it fails with the rename band-count
error of its first step — and on the strictly increasing layers 1, 2 it
fails with the very same error, so the failure is not a
NonMonotonicYears check, and no clearing-year raster is produced for any
two-layer input. -/
theorem cumulativeClearing_nonmonotonic_counterexample :
    cumulativeClearing [⟨5, woodyAllOne⟩, ⟨3, woodyAllZero⟩] =
        Except.error (EEError.renameMismatch 1 2)
    ∧ cumulativeClearing [⟨1, woodyAllOne⟩, ⟨2, woodyAllZero⟩] =
        Except.error (EEError.renameMismatch 1 2) :=
  ⟨rfl, rfl⟩

/-- C7 amended: cumulativeClearing does fail on an empty sequence, with
the out-of-range get(0) of an empty collection rather than a named
EmptySequence error; and it checks the years in no way: every sequence of
two or more single-band layers fails identically — strictly increasing by
year or not — with the band-count error of the rename inside the first
iterate step, so no clearing-year raster is produced there either. -/
theorem cumulativeClearing_empty_fails_no_year_check :
    cumulativeClearing [] = Except.error (EEError.listIndexOutOfRange 0 0)
    ∧ ∀ (b c : AnnualImage) (rest : List AnnualImage),
        b.image.bands.length = 1 → c.image.bands.length = 1 →
        cumulativeClearing (b :: c :: rest) =
          Except.error (EEError.renameMismatch 1 2) := by
  refine ⟨rfl, ?_⟩
  intro b c rest hb hc
  have hacc : (addBandsImage b.image ⟨[("clearing_year", eeConstant 0)]⟩).bands.length = 2 := by
    simp [addBandsImage, hb]
  have hstep : cumulativeStep
      (addBandsImage b.image ⟨[("clearing_year", eeConstant 0)]⟩) c =
      Except.error (EEError.renameMismatch 1 2) := by
    have hdet := detectClearingImage_two_band_error
      (addBandsImage b.image ⟨[("clearing_year", eeConstant 0)]⟩) c.image hacc hc
    unfold cumulativeStep
    rw [hdet]
  show iterateClearing (c :: rest)
      (addBandsImage b.image ⟨[("clearing_year", eeConstant 0)]⟩) =
    Except.error (EEError.renameMismatch 1 2)
  unfold iterateClearing
  rw [hstep]

/-- Witness for the amended C7, on the year-decreasing two-layer input. -/
theorem cumulativeClearing_empty_fails_no_year_check_witness :
    cumulativeClearing [⟨5, woodyAllOne⟩, ⟨3, woodyAllOne⟩] =
      Except.error (EEError.renameMismatch 1 2) :=
  cumulativeClearing_empty_fails_no_year_check.2
    ⟨5, woodyAllOne⟩ ⟨3, woodyAllOne⟩ [] rfl rfl

/-- A calendar date as built by ee.Date.fromYMD(year, month, day). -/
structure EEDate where
  y : Nat
  m : Nat
  d : Nat

/-- Linear key giving calendar order on dates (months and days stay below
100, so the key respects the calendar). -/
def dateKey (t : EEDate) : Nat := t.y * 10000 + t.m * 100 + t.d

/-- One time-stamped raster of an image collection. -/
structure Observation where
  date : EEDate
  values : Raster

/-- ee.ImageCollection.filterDate(start, end): keeps the observations with
start ≤ date < end (the end date is exclusive in Earth Engine). -/
def filterDate (collection : List Observation) (startDate endDate : EEDate) :
    List Observation :=
  collection.filter (fun obs =>
    decide (dateKey startDate ≤ dateKey obs.date)
      && decide (dateKey obs.date < dateKey endDate))

/-- The median of an already sorted list: the middle element for odd
length, the mean of the two middle elements for even length. -/
def medianOfSorted (l : List ℚ) : ℚ :=
  if l.length % 2 = 1 then l.getD (l.length / 2) 0
  else (l.getD (l.length / 2 - 1) 0 + l.getD (l.length / 2) 0) / 2

/-- The per-cell median reducer of ee.ImageCollection.median(): over zero
observations the reducer yields no data, modelled none. -/
def eeMedian (values : List Nat) : Option ℚ :=
  if values.isEmpty then none
  else
    some (medianOfSorted
      (List.insertionSort (fun a b => a ≤ b) (values.map (fun v => (v : ℚ)))))

/-- One annual composite: the year and system:time_start properties set by
createAnnualComposites, and the reduced raster, nodata-valued where the
reducer received no observations. -/
structure AnnualComposite where
  year : Nat
  time_start : EEDate
  raster : Cell → Option ℚ

/-- utils.createAnnualComposites (src/unnamed/part_000 lines 555-572): for
every year of the inclusive sequence startYear..endYear, filter the
collection to the window from 1 January to 31 December of the year and
reduce it by the per-cell median. -/
def createAnnualComposites (collection : List Observation)
    (startYear endYear : Nat) : List AnnualComposite :=
  let years := (List.range (endYear + 1 - startYear)).map (fun i => startYear + i)
  years.map (fun year =>
    let startDate : EEDate := ⟨year, 1, 1⟩
    let endDate : EEDate := ⟨year, 12, 31⟩
    let filtered := filterDate collection startDate endDate
    ⟨year, startDate,
     fun c => eeMedian (filtered.map (fun obs => obs.values c))⟩)

/-- Counterexample to C6: over an empty collection the composite for the
year-2000 window is produced silently, with no InsufficientObservations
failure, and carries no data at any cell (nodata at the sampled cells
below). -/
theorem createAnnualComposites_empty_counterexample :
    (createAnnualComposites [] 2000 2000).length = 1
    ∧ ((createAnnualComposites [] 2000 2000).getD 0
        ⟨0, ⟨0, 0, 0⟩, fun _ => none⟩).year = 2000
    ∧ ((createAnnualComposites [] 2000 2000).getD 0
        ⟨0, ⟨0, 0, 0⟩, fun _ => none⟩).raster (0, 0) = none
    ∧ ((createAnnualComposites [] 2000 2000).getD 0
        ⟨0, ⟨0, 0, 0⟩, fun _ => none⟩).raster (7, 5) = none := by
  refine ⟨rfl, rfl, rfl, rfl⟩

/-- C6 amended: when zero observations fall within a year window,
createAnnualComposites does not fail: its output still contains a
composite for that year, and that composite is the all-nodata raster. -/
theorem createAnnualComposites_empty_window_nodata
    (collection : List Observation) (startYear endYear year : Nat)
    (h1 : startYear ≤ year) (h2 : year ≤ endYear)
    (hempty : ∀ obs ∈ collection,
        ¬(dateKey ⟨year, 1, 1⟩ ≤ dateKey obs.date
          ∧ dateKey obs.date < dateKey ⟨year, 12, 31⟩)) :
    ∃ comp ∈ createAnnualComposites collection startYear endYear,
      comp.year = year ∧ ∀ c, comp.raster c = none := by
  refine ⟨⟨year, ⟨year, 1, 1⟩,
    fun c => eeMedian ((filterDate collection ⟨year, 1, 1⟩ ⟨year, 12, 31⟩).map
      (fun obs => obs.values c))⟩, ?_, rfl, ?_⟩
  · unfold createAnnualComposites
    apply List.mem_map.mpr
    refine ⟨year, ?_, rfl⟩
    apply List.mem_map.mpr
    exact ⟨year - startYear, List.mem_range.mpr (by omega), by omega⟩
  · intro c
    have hfil : filterDate collection ⟨year, 1, 1⟩ ⟨year, 12, 31⟩ = [] := by
      apply List.filter_eq_nil_iff.mpr
      intro obs hobs
      simp only [Bool.and_eq_true, decide_eq_true_eq]
      exact hempty obs hobs
    show eeMedian ((filterDate collection ⟨year, 1, 1⟩ ⟨year, 12, 31⟩).map
      (fun obs => obs.values c)) = none
    rw [hfil]
    rfl

/-- Witness for the amended C6: a collection holding one observation dated
June 1999 yields an all-nodata composite for the year 2000. -/
theorem createAnnualComposites_empty_window_nodata_witness :
    ∃ comp ∈ createAnnualComposites [⟨⟨1999, 6, 15⟩, eeConstant 7⟩] 2000 2000,
      comp.year = 2000 ∧ ∀ c, comp.raster c = none :=
  createAnnualComposites_empty_window_nodata [⟨⟨1999, 6, 15⟩, eeConstant 7⟩]
    2000 2000 2000 (by decide) (by decide) (by decide)

/-- The region a reduction runs over: the cells the platform samples
inside the region geometry at the analysis scale and CRS. -/
structure Region where
  cells : List Cell

/-- ee.Image.reduceRegion with the ee.Reducer.sum() reducer: the sum of
the image over the cells of the region. -/
def reduceRegionSum (img : Cell → ℚ) (region : Region) : ℚ :=
  (region.cells.map img).sum

/-- ee.Number.divide and ee.Image.divide: Earth Engine division, which is
documented to return 0 for division by 0. -/
def eeDivide (a b : ℚ) : ℚ := if b = 0 then 0 else a / b

/-- validateWithSLATS true-positive hectares: agreement =
deaClearing.and(slatsRaster), area-weighted, summed over the region and
divided by 10000. -/
def truePositiveHa (deaClearing slatsRaster : Raster) (region : Region)
    (pixelArea : Cell → ℚ) : ℚ :=
  eeDivide (reduceRegionSum
    (fun c => ((eeAnd deaClearing slatsRaster) c : ℚ) * pixelArea c) region) 10000

/-- validateWithSLATS false-positive hectares: deaOnly =
deaClearing.and(slatsRaster.not()). -/
def falsePositiveHa (deaClearing slatsRaster : Raster) (region : Region)
    (pixelArea : Cell → ℚ) : ℚ :=
  eeDivide (reduceRegionSum
    (fun c => ((eeAnd deaClearing (eeNot slatsRaster)) c : ℚ) * pixelArea c) region) 10000

/-- validateWithSLATS false-negative hectares: slatsOnly =
slatsRaster.and(deaClearing.not()). -/
def falseNegativeHa (deaClearing slatsRaster : Raster) (region : Region)
    (pixelArea : Cell → ℚ) : ℚ :=
  eeDivide (reduceRegionSum
    (fun c => ((eeAnd slatsRaster (eeNot deaClearing)) c : ℚ) * pixelArea c) region) 10000

/-- validateWithSLATS true-negative hectares: neitherDetected =
deaClearing.not().and(slatsRaster.not()). -/
def trueNegativeHa (deaClearing slatsRaster : Raster) (region : Region)
    (pixelArea : Cell → ℚ) : ℚ :=
  eeDivide (reduceRegionSum
    (fun c => ((eeAnd (eeNot deaClearing) (eeNot slatsRaster)) c : ℚ) * pixelArea c) region) 10000

/-- The dictionary returned by validateWithSLATS. -/
structure ValidationStats where
  true_positive_ha : ℚ
  false_positive_ha : ℚ
  false_negative_ha : ℚ
  true_negative_ha : ℚ
  precision : ℚ
  «recall» : ℚ
  f1_score : ℚ
  overall_accuracy : ℚ

/-- validateWithSLATS (src/gee_scripts/utils/slats_integration.js lines
78-125).  The SLATS reference arrives as the binary raster produced by
slatsToRaster, the platform rasterisation of the clearing polygons; the
per-cell weights model ee.Image.pixelArea().  precision =
tp.divide(tp.add(fp)), recall = tp.divide(tp.add(fn)), f1 =
precision.multiply(recall).multiply(2).divide(precision.add(recall)),
accuracy = tp.add(tn).divide(tp.add(fp).add(fn).add(tn)). -/
def validateWithSLATS (deaClearing slatsRaster : Raster) (region : Region)
    (pixelArea : Cell → ℚ) : ValidationStats :=
  let tp := truePositiveHa deaClearing slatsRaster region pixelArea
  let fp := falsePositiveHa deaClearing slatsRaster region pixelArea
  let fneg := falseNegativeHa deaClearing slatsRaster region pixelArea
  let tn := trueNegativeHa deaClearing slatsRaster region pixelArea
  let precision := eeDivide tp (tp + fp)
  let recallVal := eeDivide tp (tp + fneg)
  let f1Score := eeDivide (precision * recallVal * 2) (precision + recallVal)
  let accuracy := eeDivide (tp + tn) (tp + fp + fneg + tn)
  ⟨tp, fp, fneg, tn, precision, recallVal, f1Score, accuracy⟩

/-- A concrete four-cell region. -/
def regionFour : Region := ⟨[(0, 0), (0, 1), (1, 0), (1, 1)]⟩

/-- Counterexample to C4: with the derived and reference rasters both
all-zero over a four-cell region of 625 square-metre cells, TP = FP = FN
= 0 and TN is the region area, yet precision and recall are reported as
the number 0 — Earth Engine division returns 0 on a zero denominator —
and not as a null or undefined value. -/
theorem validate_precision_zero_counterexample :
    (validateWithSLATS (eeConstant 0) (eeConstant 0) regionFour
        (fun _ => 625)).precision = 0
    ∧ (validateWithSLATS (eeConstant 0) (eeConstant 0) regionFour
        (fun _ => 625)).recall = 0
    ∧ (validateWithSLATS (eeConstant 0) (eeConstant 0) regionFour
        (fun _ => 625)).true_negative_ha = 1 / 4 := by
  refine ⟨?_, ?_, ?_⟩ <;>
    norm_num [validateWithSLATS, truePositiveHa, falsePositiveHa,
      falseNegativeHa, trueNegativeHa, reduceRegionSum, eeDivide, eeAnd,
      eeNot, eeConstant, regionFour]

/-- The precision field of validateWithSLATS, unfolded. -/
theorem validate_precision_eq (deaClearing slatsRaster : Raster)
    (region : Region) (pixelArea : Cell → ℚ) :
    (validateWithSLATS deaClearing slatsRaster region pixelArea).precision =
      eeDivide (truePositiveHa deaClearing slatsRaster region pixelArea)
        (truePositiveHa deaClearing slatsRaster region pixelArea
          + falsePositiveHa deaClearing slatsRaster region pixelArea) := rfl

/-- The recall field of validateWithSLATS, unfolded. -/
theorem validate_recall_eq (deaClearing slatsRaster : Raster)
    (region : Region) (pixelArea : Cell → ℚ) :
    (validateWithSLATS deaClearing slatsRaster region pixelArea).recall =
      eeDivide (truePositiveHa deaClearing slatsRaster region pixelArea)
        (truePositiveHa deaClearing slatsRaster region pixelArea
          + falseNegativeHa deaClearing slatsRaster region pixelArea) := rfl

/-- The f1_score field of validateWithSLATS, unfolded. -/
theorem validate_f1_eq (deaClearing slatsRaster : Raster)
    (region : Region) (pixelArea : Cell → ℚ) :
    (validateWithSLATS deaClearing slatsRaster region pixelArea).f1_score =
      eeDivide
        ((validateWithSLATS deaClearing slatsRaster region pixelArea).precision
          * (validateWithSLATS deaClearing slatsRaster region pixelArea).recall * 2)
        ((validateWithSLATS deaClearing slatsRaster region pixelArea).precision
          + (validateWithSLATS deaClearing slatsRaster region pixelArea).recall) := rfl

/-- C4 amended: the validator reports no null values: its metrics come
from Earth Engine division, which returns 0 on a zero denominator, so the
reported precision is 0 whenever TP + FP = 0, the recall is 0 whenever
TP + FN = 0, and the f1 score is 0 whenever precision + recall = 0. -/
theorem validate_zero_denominator_yields_zero
    (deaClearing slatsRaster : Raster) (region : Region) (pixelArea : Cell → ℚ) :
    (truePositiveHa deaClearing slatsRaster region pixelArea
        + falsePositiveHa deaClearing slatsRaster region pixelArea = 0 →
      (validateWithSLATS deaClearing slatsRaster region pixelArea).precision = 0)
    ∧ (truePositiveHa deaClearing slatsRaster region pixelArea
        + falseNegativeHa deaClearing slatsRaster region pixelArea = 0 →
      (validateWithSLATS deaClearing slatsRaster region pixelArea).recall = 0)
    ∧ ((validateWithSLATS deaClearing slatsRaster region pixelArea).precision
        + (validateWithSLATS deaClearing slatsRaster region pixelArea).recall = 0 →
      (validateWithSLATS deaClearing slatsRaster region pixelArea).f1_score = 0) := by
  refine ⟨?_, ?_, ?_⟩
  · intro h
    rw [validate_precision_eq, h]
    simp [eeDivide]
  · intro h
    rw [validate_recall_eq, h]
    simp [eeDivide]
  · intro h
    rw [validate_f1_eq, h]
    simp [eeDivide]

/-- Witness for the amended C4: derived all-zero against reference
all-one gives TP + FP = 0 and a reported precision of 0. -/
theorem validate_zero_denominator_yields_zero_witness :
    (validateWithSLATS (eeConstant 0) (eeConstant 1) regionFour
        (fun _ => 625)).precision = 0 :=
  (validate_zero_denominator_yields_zero (eeConstant 0) (eeConstant 1)
    regionFour (fun _ => 625)).1
    (by norm_num [truePositiveHa, falsePositiveHa, reduceRegionSum,
      eeDivide, eeAnd, eeNot, eeConstant, regionFour])

/-- A single-band image with its band name, as consumed by
utils.calculateArea; detectClearing outputs carry the band name
clearing, woody masks the band name woody. -/
structure NamedRaster where
  bandName : String
  values : Raster

/-- utils.calculateArea (src/unnamed/part_000 lines 667-681): multiply the
binary image by ee.Image.pixelArea() and reduceRegion with the sum
reducer; the result is the dictionary keyed by the band name of the
image. -/
def calculateArea (image : NamedRaster) (region : Region)
    (pixelArea : Cell → ℚ) : List (String × ℚ) :=
  [(image.bandName,
    reduceRegionSum (fun c => (image.values c : ℚ) * pixelArea c) region)]

/-- Counterexample to C9: over a region all of whose cells read 0 in the
binary clearing image, calculateArea returns the singleton mapping from
the band name to the sum 0 — a successful result, but not the empty
mapping the claim states. -/
theorem calculateArea_not_empty_counterexample :
    calculateArea ⟨"clearing", eeConstant 0⟩ regionFour (fun _ => 625)
        = [("clearing", 0)]
    ∧ calculateArea ⟨"clearing", eeConstant 0⟩ regionFour (fun _ => 625)
        ≠ ([] : List (String × ℚ)) := by
  constructor
  · norm_num [calculateArea, reduceRegionSum, regionFour, eeConstant]
  · simp [calculateArea]

/-- C9 amended: when no qualifying (nonzero) cell of the raster lies
within the region, calculateArea does not fail and does not return an
empty mapping: it returns the singleton mapping from the band name of the
image to the area sum 0. -/
theorem calculateArea_singleton_zero
    (image : NamedRaster) (region : Region) (pixelArea : Cell → ℚ)
    (h : ∀ c ∈ region.cells, image.values c = 0) :
    calculateArea image region pixelArea = [(image.bandName, 0)] := by
  have hz : (region.cells.map
      (fun c => (image.values c : ℚ) * pixelArea c)).sum = 0 := by
    apply List.sum_eq_zero
    intro x hx
    obtain ⟨c, hc, rfl⟩ := List.mem_map.mp hx
    rw [h c hc]
    simp
  unfold calculateArea reduceRegionSum
  rw [hz]

/-- Witness for the amended C9, on an all-zero woody mask over the
four-cell region. -/
theorem calculateArea_singleton_zero_witness :
    calculateArea ⟨"woody", eeConstant 0⟩ regionFour (fun _ => 100)
      = [("woody", 0)] :=
  calculateArea_singleton_zero ⟨"woody", eeConstant 0⟩ regionFour
    (fun _ => 100) (fun c hc => rfl)

end AusLandClearing
